/-
Verification of the session-consistency backend (Climate_Backend).

The embedding models `src/app.js` and its Redis/Mongo collaborators:
  * the durable store (Mongo `Consumers` collection) is a list of
    `UserRecord`s, `findOne`/`updateOne` act on the first match;
  * the session cache (Redis) is an association list from token to the
    decoded session projection together with its absolute expiry
    (`SET ... EX` stores `now + TTL`); JSON (de)serialization between the
    stored string and the projection is injective, so the cache stores the
    projection directly and serialization is used where the source hashes it;
  * `bcrypt` is modelled as an opaque verifier that verifies exactly the
    password it was created from (`Hashed`);
  * the sha256 hex digest used for token derivation is modelled by a full
    SHA-256 implementation over byte lists (Nat arithmetic mod 2^32).
-/
import Mathlib

set_option maxHeartbeats 1000000

/-! ## SHA-256 over byte lists (model of crypto.createHash) -/

def w32 (n : Nat) : Nat := n % 4294967296

def rotr32 (x n : Nat) : Nat :=
  w32 (((x % 4294967296) >>> n) ||| ((x % 4294967296) <<< (32 - n)))

def bnot32 (x : Nat) : Nat := x ^^^ 4294967295

def shaCh (x y z : Nat) : Nat := (x &&& y) ^^^ (bnot32 x &&& z)

def shaMaj (x y z : Nat) : Nat := (x &&& y) ^^^ (x &&& z) ^^^ (y &&& z)

def bigSigma0 (x : Nat) : Nat := rotr32 x 2 ^^^ rotr32 x 13 ^^^ rotr32 x 22

def bigSigma1 (x : Nat) : Nat := rotr32 x 6 ^^^ rotr32 x 11 ^^^ rotr32 x 25

def smallSigma0 (x : Nat) : Nat := rotr32 x 7 ^^^ rotr32 x 18 ^^^ (x >>> 3)

def smallSigma1 (x : Nat) : Nat := rotr32 x 17 ^^^ rotr32 x 19 ^^^ (x >>> 10)

def K256 : List Nat :=
  [1116352408, 1899447441, 3049323471, 3921009573, 961987163,
   1508970993, 2453635748, 2870763221, 3624381080, 310598401,
   607225278, 1426881987, 1925078388, 2162078206, 2614888103,
   3248222580, 3835390401, 4022224774, 264347078, 604807628,
   770255983, 1249150122, 1555081692, 1996064986, 2554220882,
   2821834349, 2952996808, 3210313671, 3336571891, 3584528711,
   113926993, 338241895, 666307205, 773529912, 1294757372,
   1396182291, 1695183700, 1986661051, 2177026350, 2456956037,
   2730485921, 2820302411, 3259730800, 3345764771, 3516065817,
   3600352804, 4094571909, 275423344, 430227734, 506948616,
   659060556, 883997877, 958139571, 1322822218, 1537002063,
   1747873779, 1955562222, 2024104815, 2227730452, 2361852424,
   2428436474, 2756734187, 3204031479, 3329325298]

structure Hash8 where
  a0 : Nat
  a1 : Nat
  a2 : Nat
  a3 : Nat
  a4 : Nat
  a5 : Nat
  a6 : Nat
  a7 : Nat
deriving Repr, DecidableEq

def initH : Hash8 :=
  ⟨1779033703, 3144134277, 1013904242, 2773480762, 1359893119, 2600822924, 528734635, 1541459225⟩

def shaRound (st : Hash8) (k w : Nat) : Hash8 :=
  let t1 := w32 (st.a7 + bigSigma1 st.a4 + shaCh st.a4 st.a5 st.a6 + k + w)
  let t2 := w32 (bigSigma0 st.a0 + shaMaj st.a0 st.a1 st.a2)
  ⟨w32 (t1 + t2), st.a0, st.a1, st.a2, w32 (st.a3 + t1), st.a4, st.a5, st.a6⟩

def addHash (x y : Hash8) : Hash8 :=
  ⟨w32 (x.a0 + y.a0), w32 (x.a1 + y.a1), w32 (x.a2 + y.a2), w32 (x.a3 + y.a3),
   w32 (x.a4 + y.a4), w32 (x.a5 + y.a5), w32 (x.a6 + y.a6), w32 (x.a7 + y.a7)⟩

def bytesToWords : List Nat → List Nat
  | b0 :: b1 :: b2 :: b3 :: rest => (((b0 * 256 + b1) * 256 + b2) * 256 + b3) :: bytesToWords rest
  | _ => []

def scheduleStep (w : Array Nat) : Array Nat :=
  let i := w.size
  w.push (w32 (smallSigma1 (w.getD (i - 2) 0) + w.getD (i - 7) 0 +
               smallSigma0 (w.getD (i - 15) 0) + w.getD (i - 16) 0))

def buildSchedule (w16 : Array Nat) : Array Nat :=
  (List.range 48).foldl (fun w _ => scheduleStep w) w16

def compressBlock (h : Hash8) (block : List Nat) : Hash8 :=
  let w := buildSchedule (bytesToWords block).toArray
  let st := (List.range 64).foldl (fun st i => shaRound st (K256.getD i 0) (w.getD i 0)) h
  addHash h st

def lenBytes (n : Nat) : List Nat :=
  [n / 2 ^ 56 % 256, n / 2 ^ 48 % 256, n / 2 ^ 40 % 256, n / 2 ^ 32 % 256,
   n / 2 ^ 24 % 256, n / 2 ^ 16 % 256, n / 2 ^ 8 % 256, n % 256]

def padMessage (msg : List Nat) : List Nat :=
  let len := msg.length
  let zeros := (64 - (len + 9) % 64) % 64
  msg ++ 128 :: List.replicate zeros 0 ++ lenBytes (len * 8)

def chunksGo : Nat → List Nat → List (List Nat)
  | 0, _ => []
  | n + 1, l => l.take 64 :: chunksGo n (l.drop 64)

def chunks64 (l : List Nat) : List (List Nat) := chunksGo (l.length / 64) l

def sha256Bytes (msg : List Nat) : Hash8 :=
  (chunks64 (padMessage msg)).foldl compressBlock initH

def hexChar (n : Nat) : Char := "0123456789abcdef".toList.getD n '0'

def toHex8 (n : Nat) : String :=
  String.mk [hexChar (n / 16 ^ 7 % 16), hexChar (n / 16 ^ 6 % 16),
             hexChar (n / 16 ^ 5 % 16), hexChar (n / 16 ^ 4 % 16),
             hexChar (n / 16 ^ 3 % 16), hexChar (n / 16 ^ 2 % 16),
             hexChar (n / 16 % 16), hexChar (n % 16)]

def digestHex (h : Hash8) : String :=
  toHex8 h.a0 ++ toHex8 h.a1 ++ toHex8 h.a2 ++ toHex8 h.a3 ++
  toHex8 h.a4 ++ toHex8 h.a5 ++ toHex8 h.a6 ++ toHex8 h.a7

def strBytes (s : String) : List Nat := s.toUTF8.toList.map (fun b => b.toNat)

def sha256Hex (s : String) : String := digestHex (sha256Bytes (strBytes s))

/-! ## Data model -/

/-- Abstract bcrypt verifier: `bcrypt.hash(pw, rounds)` yields a verifier that
`bcrypt.compare` accepts exactly for `pw` (one-wayness is irrelevant here). -/
structure Hashed where
  rounds : Nat
  ofPassword : String
deriving Repr, DecidableEq

def bcryptHash (rounds : Nat) (pw : String) : Hashed := ⟨rounds, pw⟩

def bcryptCompare (pw : String) (h : Hashed) : Bool := pw == h.ofPassword

/-- A document of the Mongo `Consumers` collection. Optional fields model
fields that may be absent (or null) on a document. -/
structure UserRecord where
  userid : String
  name : String
  email : String
  phone : String
  password : Hashed
  sessionKey : Option String
  resetTokenUsed : Option Bool
  resetTokenTime : Option Nat
  passwordChangedAt : Option Nat
  createdAt : Nat
deriving Repr, DecidableEq

/-- The session projection (`userPayload` object literals of app.js),
field order as in the source. -/
structure UserPayload where
  name : String
  email : String
  phone : String
  userid : String
  createdAt : Nat
  resetTokenUsed : Bool
  resetTokenTime : Option Nat
deriving Repr, DecidableEq

/-- JS `x || null` on a nullable number: 0 is falsy. -/
def jsOrNull : Option Nat → Option Nat
  | some n => if n = 0 then none else some n
  | none => none

/-- Payload construction of /login, /userfromsession and /updateprofile, with
the source defaults `user.resetTokenUsed || false`, `user.resetTokenTime || null`. -/
def buildUserPayload (u : UserRecord) : UserPayload :=
  { name := u.name
    email := u.email
    phone := u.phone
    userid := u.userid
    createdAt := u.createdAt
    resetTokenUsed := u.resetTokenUsed.getD false
    resetTokenTime := jsOrNull u.resetTokenTime }

def jsonEscapeChar (c : Char) : String :=
  if c = '"' then "\\\"" else if c = '\\' then "\\\\" else String.singleton c

def jsonEscape (s : String) : String := String.join (s.toList.map jsonEscapeChar)

def jsonStr (s : String) : String := "\"" ++ jsonEscape s ++ "\""

/-- Serialization `JSON.stringify(userPayload)`: object-literal key order is preserved. -/
def serializePayload (p : UserPayload) : String :=
  "\x7b\"name\":" ++ jsonStr p.name ++
  ",\"email\":" ++ jsonStr p.email ++
  ",\"phone\":" ++ jsonStr p.phone ++
  ",\"userid\":" ++ jsonStr p.userid ++
  ",\"createdAt\":" ++ jsonStr (toString p.createdAt) ++
  ",\"resetTokenUsed\":" ++ (if p.resetTokenUsed then "true" else "false") ++
  ",\"resetTokenTime\":" ++ (match p.resetTokenTime with
                             | none => "null"
                             | some n => jsonStr (toString n)) ++ "\x7d"

/-- Token derivation of /login: the sha256 hex digest of the serialized payload. -/
def deriveToken (p : UserPayload) : String := sha256Hex (serializePayload p)

/-- Redis TTL used throughout app.js: `60 * 60 * 24 * 90` seconds. -/
def TTL90 : Nat := 60 * 60 * 24 * 90

/-- One Redis entry: key (the session token), decoded projection, absolute expiry. -/
def CacheEntry : Type := String × UserPayload × Nat

/-- Server state: Mongo `Consumers` in insertion order, the Redis keyspace,
and the current wall-clock instant (`new Date()` / TTL base). -/
structure ServerState where
  users : List UserRecord
  cache : List (String × UserPayload × Nat)
  now : Nat
deriving Repr, DecidableEq

def cacheGet (c : List (String × UserPayload × Nat)) (k : String) : Option (UserPayload × Nat) :=
  (c.find? (fun e => e.1 == k)).map (fun e => e.2)

def cacheDel (c : List (String × UserPayload × Nat)) (k : String) : List (String × UserPayload × Nat) :=
  c.filter (fun e => !(e.1 == k))

/-- Cache write `redisClient.set(k, v, EX ttl)`: replaces any previous entry under `k`. -/
def cacheSet (c : List (String × UserPayload × Nat)) (k : String) (v : UserPayload) (expiry : Nat) :
    List (String × UserPayload × Nat) :=
  (k, v, expiry) :: cacheDel c k

/-- Mongo `findOne(query)`: first document matching the filter. -/
def findOneUser (p : UserRecord → Bool) (us : List UserRecord) : Option UserRecord :=
  us.find? p

/-- Mongo `updateOne(query, update)`: rewrites the first matching document. -/
def updateOneUser (p : UserRecord → Bool) (f : UserRecord → UserRecord) :
    List UserRecord → List UserRecord
  | [] => []
  | u :: us => if p u then f u :: us else u :: updateOneUser p f us

/-! ## Endpoint results (response bodies of app.js, with their HTTP statuses) -/

inductive RegisterResult
  | created
  | missingFields
  | duplicateEmail
deriving Repr, DecidableEq

def RegisterResult.status : RegisterResult → Nat
  | .created => 201
  | .missingFields => 400
  | .duplicateEmail => 409

structure LoginOk where
  message : String
  sessionKey : String
  userid : String
  name : String
  success : Bool
deriving Repr, DecidableEq

inductive LoginResult
  | ok (r : LoginOk)
  | userNotFound
  | invalidCredentials
deriving Repr, DecidableEq

def LoginResult.status : LoginResult → Nat
  | .ok _ => 200
  | .userNotFound => 400
  | .invalidCredentials => 400

inductive SessionResult
  | ok (user : UserPayload)
  | expired
  | invalidSession
deriving Repr, DecidableEq

def SessionResult.status : SessionResult → Nat
  | .ok _ => 200
  | .expired => 401
  | .invalidSession => 401

/-- The machine-readable `code` field of the 401 bodies of /userfromsession. -/
def SessionResult.errCode : SessionResult → Option String
  | .ok _ => none
  | .expired => some "SESSION_EXPIRED"
  | .invalidSession => none

inductive UpdateResult
  | ok (user : UserPayload)
  | notFound
  | expired
  | serverError
deriving Repr, DecidableEq

def UpdateResult.status : UpdateResult → Nat
  | .ok _ => 200
  | .notFound => 404
  | .expired => 401
  | .serverError => 500

inductive PwResult
  | ok
  | missingField
  | tooShort
  | noUserId
  | userNotFound
  | wrongPassword
  | notModified
deriving Repr, DecidableEq

def PwResult.status : PwResult → Nat
  | .ok => 200
  | .missingField => 400
  | .tooShort => 400
  | .noUserId => 401
  | .userNotFound => 404
  | .wrongPassword => 400
  | .notModified => 500

/-! ## Endpoints of app.js as pure state transformers -/

/-- JS `String.prototype.toLowerCase()` (per-character lowercasing). -/
def jsToLower (s : String) : String := String.mk (s.data.map Char.toLower)

/-- JS falsiness of an optional request string: `undefined` or `""`. -/
def isFalsyStr : Option String → Bool
  | none => true
  | some s => s.isEmpty

structure RegisterRequest where
  name : Option String
  email : Option String
  phone : Option String
  password : Option String
deriving Repr, DecidableEq

/-- The `newUser` document inserted by POST /register. -/
def newConsumer (s : ServerState) (req : RegisterRequest) (newUserId : String) : UserRecord :=
  { userid := newUserId
    name := req.name.getD ""
    email := jsToLower (req.email.getD "")
    phone := req.phone.getD ""
    password := bcryptHash 10 (req.password.getD "")
    sessionKey := none
    resetTokenUsed := some false
    resetTokenTime := none
    passwordChangedAt := none
    createdAt := s.now }

/-- POST /register. `newUserId` stands for `crypto.randomUUID()`; the 11000
duplicate-key error of `insertOne` fires exactly when a stored document
already carries the (lowercased) email, by the unique index on `email`. -/
def registerUser (s : ServerState) (req : RegisterRequest) (newUserId : String) :
    ServerState × RegisterResult :=
  if isFalsyStr req.name || isFalsyStr req.email || isFalsyStr req.phone ||
     isFalsyStr req.password then
    (s, RegisterResult.missingFields)
  else
    let email := jsToLower (req.email.getD "")
    if s.users.any (fun u => u.email == email) then
      (s, RegisterResult.duplicateEmail)
    else
      ({ s with users := s.users ++ [newConsumer s req newUserId] }, RegisterResult.created)

/-- POST /login. -/
def login (s : ServerState) (email password : String) : ServerState × LoginResult :=
  match findOneUser (fun u => u.email == jsToLower email) s.users with
  | none => (s, LoginResult.userNotFound)
  | some user =>
    if bcryptCompare password user.password then
      let freshLogin : ServerState × LoginResult :=
        let userPayload := buildUserPayload user
        let sessionKey := deriveToken userPayload
        ({ s with
            users := updateOneUser (fun u => u.email == jsToLower email)
                       (fun u => { u with sessionKey := some sessionKey }) s.users
            cache := cacheSet s.cache sessionKey userPayload (s.now + TTL90) },
         LoginResult.ok
           { message := "Login successful", sessionKey := sessionKey,
             userid := user.userid, name := user.name, success := true })
      match user.sessionKey with
      | some k =>
        match cacheGet s.cache k with
        | some _ =>
          (s, LoginResult.ok
                { message := "Login successful", sessionKey := k,
                  userid := user.userid, name := user.name, success := true })
        | none => freshLogin
      | none => freshLogin
    else (s, LoginResult.invalidCredentials)

/-- The staleness check of GET /userfromsession (`dataChanged`), verbatim:
a disjunction of `!==` comparisons over the five mutable-projection fields. -/
def dataChanged (cachedData currentUserPayload : UserPayload) : Bool :=
  cachedData.name != currentUserPayload.name ||
  cachedData.email != currentUserPayload.email ||
  cachedData.phone != currentUserPayload.phone ||
  cachedData.resetTokenUsed != currentUserPayload.resetTokenUsed ||
  cachedData.resetTokenTime != currentUserPayload.resetTokenTime

/-- GET /userfromsession/:sessionKey — the session reconciler. -/
def resolveSession (s : ServerState) (sessionKey : String) : ServerState × SessionResult :=
  match cacheGet s.cache sessionKey with
  | none =>
    ({ s with
        users := updateOneUser (fun u => u.sessionKey == some sessionKey)
                   (fun u => { u with sessionKey := none }) s.users },
     SessionResult.expired)
  | some (cachedData, _expiry) =>
    match findOneUser (fun u => u.sessionKey == some sessionKey) s.users with
    | none => (s, SessionResult.invalidSession)
    | some user =>
      let currentUserPayload := buildUserPayload user
      if dataChanged cachedData currentUserPayload then
        ({ s with
            cache := cacheSet (cacheDel s.cache sessionKey) sessionKey
                       currentUserPayload (s.now + TTL90) },
         SessionResult.ok currentUserPayload)
      else
        (s, SessionResult.ok cachedData)

structure PwChangeRequest where
  currentPassword : Option String
  newPassword : Option String
  userid : Option String
deriving Repr, DecidableEq

/-- POST /password/change. `req.user` is never set (no auth middleware), so the
acting user comes from the body field. `modifiedCount === 0` fires exactly when
the rewritten document equals the original. -/
def passwordChange (s : ServerState) (req : PwChangeRequest) : ServerState × PwResult :=
  if isFalsyStr req.currentPassword || isFalsyStr req.newPassword then
    (s, PwResult.missingField)
  else if (req.newPassword.getD "").length < 8 then
    (s, PwResult.tooShort)
  else if isFalsyStr req.userid then
    (s, PwResult.noUserId)
  else
    let uid := req.userid.getD ""
    match findOneUser (fun u => u.userid == uid) s.users with
    | none => (s, PwResult.userNotFound)
    | some user =>
      if !bcryptCompare (req.currentPassword.getD "") user.password then
        (s, PwResult.wrongPassword)
      else
        let hashedNewPassword := bcryptHash 12 (req.newPassword.getD "")
        let users2 := updateOneUser (fun u => u.userid == uid)
          (fun u => { u with password := hashedNewPassword, passwordChangedAt := some s.now })
          s.users
        if users2 == s.users then (s, PwResult.notModified)
        else ({ s with users := users2 }, PwResult.ok)

/-- PUT /updateprofile. The `serverError` arm models the uncaught null
dereference (→ catch → 500) if the re-read after the update found nothing;
`updateProfile_ok_spec` below shows this arm is unreachable. -/
def updateProfile (s : ServerState) (sessionKey name phone : String) :
    ServerState × UpdateResult :=
  match findOneUser (fun u => u.sessionKey == some sessionKey) s.users with
  | none => (s, UpdateResult.notFound)
  | some _user =>
    match cacheGet s.cache sessionKey with
    | none =>
      ({ s with
          users := updateOneUser (fun u => u.sessionKey == some sessionKey)
                     (fun u => { u with sessionKey := none }) s.users },
       UpdateResult.expired)
    | some _ =>
      let users2 := updateOneUser (fun u => u.sessionKey == some sessionKey)
        (fun u => { u with name := name, phone := phone }) s.users
      match findOneUser (fun u => u.sessionKey == some sessionKey) users2 with
      | none => ({ s with users := users2 }, UpdateResult.serverError)
      | some updatedUser =>
        let updatedUserPayload := buildUserPayload updatedUser
        ({ s with
            users := users2
            cache := cacheSet s.cache sessionKey updatedUserPayload (s.now + TTL90) },
         UpdateResult.ok updatedUserPayload)

/-! ## Derived notions used by the claims -/

/-- Any request the service can process. -/
inductive Op
  | doRegister (req : RegisterRequest) (uid : String)
  | doLogin (email password : String)
  | doResolve (token : String)
  | doPwChange (req : PwChangeRequest)
  | doUpdate (token name phone : String)
deriving Repr

def applyOp (s : ServerState) : Op → ServerState
  | Op.doRegister req uid => (registerUser s req uid).1
  | Op.doLogin e pw => (login s e pw).1
  | Op.doResolve t => (resolveSession s t).1
  | Op.doPwChange req => (passwordChange s req).1
  | Op.doUpdate t n ph => (updateProfile s t n ph).1

/-- A session token is live when its cache entry exists and some durable
record points at it — exactly when `resolveSession` succeeds. -/
def sessionLive (s : ServerState) (t : String) : Bool :=
  (cacheGet s.cache t).isSome &&
  (findOneUser (fun u => u.sessionKey == some t) s.users).isSome

/-- Normalizes every stored verifier to a canonical one for the same
password: used to state that responses depend on the verifier only through
which password it verifies. -/
def scrubState (s : ServerState) : ServerState :=
  { s with users := s.users.map (fun u => { u with password := bcryptHash 0 u.password.ofPassword }) }

/-- Every field of a durable record except the two password fields. -/
def framePart (u : UserRecord) :
    String × String × String × String × Option String × Option Bool × Option Nat × Nat :=
  (u.userid, u.name, u.email, u.phone, u.sessionKey, u.resetTokenUsed, u.resetTokenTime, u.createdAt)

/-! ## Concrete fixtures (used to exercise the theorems on closed inputs) -/

def wUser : UserRecord :=
  { userid := "u-1", name := "Alice", email := "a@x.com", phone := "111",
    password := bcryptHash 10 "hunter2000", sessionKey := some "tok",
    resetTokenUsed := some false, resetTokenTime := none,
    passwordChangedAt := none, createdAt := 5 }

def wState : ServerState :=
  { users := [wUser], cache := [("tok", buildUserPayload wUser, 77)], now := 42 }

def wStaleState : ServerState :=
  { users := [wUser],
    cache := [("tok", { buildUserPayload wUser with name := "Old" }, 77)], now := 42 }

def wNoCacheState : ServerState :=
  { users := [wUser], cache := [], now := 42 }

def wFreshUser : UserRecord :=
  { wUser with sessionKey := none }

def wFreshState : ServerState :=
  { users := [wFreshUser], cache := [], now := 42 }

def wRegReq : RegisterRequest :=
  { name := some "Bob", email := some "A@x.com", phone := some "222",
    password := some "secret123" }

def wPwReq : PwChangeRequest :=
  { currentPassword := some "hunter2000", newPassword := some "newpass99",
    userid := some "u-1" }

def wLoginOk : LoginOk :=
  { message := "Login successful", sessionKey := "tok", userid := "u-1",
    name := "Alice", success := true }

/-! ## Helper lemmas about the store and cache primitives -/

theorem cacheGet_set_self (c : List (String × UserPayload × Nat)) (k : String)
    (v : UserPayload) (e : Nat) : cacheGet (cacheSet c k v e) k = some (v, e) := by
  simp [cacheGet, cacheSet, List.find?_cons]

theorem cacheGet_del_ne (c : List (String × UserPayload × Nat)) (k t : String)
    (h : t ≠ k) : cacheGet (cacheDel c k) t = cacheGet c t := by
  induction c with
  | nil => rfl
  | cons x c ih =>
    by_cases hk : x.1 = k
    · have hxt : (x.1 == t) = false := by
        refine beq_eq_false_iff_ne.mpr ?_
        rw [hk]
        exact fun hkt => h hkt.symm
      have h1 : cacheDel (x :: c) k = cacheDel c k := by
        simp [cacheDel, List.filter_cons, hk]
      have h2 : cacheGet (x :: c) t = cacheGet c t := by
        simp [cacheGet, List.find?_cons, hxt]
      rw [h1, h2, ih]
    · have h1 : cacheDel (x :: c) k = x :: cacheDel c k := by
        simp [cacheDel, List.filter_cons, hk]
      by_cases hxt : x.1 = t
      · have hb : (x.1 == t) = true := beq_iff_eq.mpr hxt
        simp [h1, cacheGet, List.find?_cons, hb]
      · have hb : (x.1 == t) = false := beq_eq_false_iff_ne.mpr hxt
        have h2 : cacheGet (x :: c) t = cacheGet c t := by
          simp [cacheGet, List.find?_cons, hb]
        have h3 : cacheGet (x :: cacheDel c k) t = cacheGet (cacheDel c k) t := by
          simp [cacheGet, List.find?_cons, hb]
        rw [h1, h3, ih, h2]

theorem cacheGet_set_ne (c : List (String × UserPayload × Nat)) (k t : String)
    (v : UserPayload) (e : Nat) (h : t ≠ k) :
    cacheGet (cacheSet c k v e) t = cacheGet c t := by
  have hb : ((k, v, e).1 == t) = false := beq_eq_false_iff_ne.mpr (fun hkt => h hkt.symm)
  have h1 : cacheGet (cacheSet c k v e) t = cacheGet (cacheDel c k) t := by
    simp [cacheSet, cacheGet, List.find?_cons, hb]
  rw [h1, cacheGet_del_ne c k t h]

theorem find?_append_isSome (p : UserRecord → Bool) (us vs : List UserRecord)
    (h : (us.find? p).isSome = true) : ((us ++ vs).find? p).isSome = true := by
  induction us with
  | nil => simp [List.find?] at h
  | cons u us ih =>
    rw [List.cons_append]
    by_cases hp : p u
    · rw [List.find?_cons_of_pos _ hp]
      rfl
    · rw [List.find?_cons_of_neg _ hp] at h
      rw [List.find?_cons_of_neg _ hp]
      exact ih h

theorem find?_updateOneUser_self (q : UserRecord → Bool) (f : UserRecord → UserRecord)
    (hq : ∀ u, q u = true → q (f u) = true) (us : List UserRecord) :
    ∀ u0 : UserRecord, us.find? q = some u0 →
      (updateOneUser q f us).find? q = some (f u0) := by
  induction us with
  | nil => intro u0 h; simp [List.find?] at h
  | cons u us ih =>
    intro u0 h
    by_cases hqu : q u
    · rw [List.find?_cons_of_pos _ hqu] at h
      injection h with h
      subst h
      simp only [updateOneUser, if_pos hqu]
      rw [List.find?_cons_of_pos _ (hq u hqu)]
    · rw [List.find?_cons_of_neg _ hqu] at h
      simp only [updateOneUser, if_neg hqu]
      rw [List.find?_cons_of_neg _ hqu]
      exact ih u0 h

theorem find?_updateOneUser_map {β : Type} (q p : UserRecord → Bool)
    (f : UserRecord → UserRecord) (g : UserRecord → β)
    (hp : ∀ u, p (f u) = p u) (hg : ∀ u, g (f u) = g u) (us : List UserRecord) :
    ((updateOneUser q f us).find? p).map g = (us.find? p).map g := by
  induction us with
  | nil => rfl
  | cons u us ih =>
    by_cases hqu : q u
    · simp only [updateOneUser, if_pos hqu]
      by_cases hpu : p u
      · rw [List.find?_cons_of_pos _ hpu,
            List.find?_cons_of_pos _ (by rw [hp u]; exact hpu)]
        simp [hg u]
      · rw [List.find?_cons_of_neg _ hpu,
            List.find?_cons_of_neg _ (by rw [hp u]; exact hpu)]
    · simp only [updateOneUser, if_neg hqu]
      by_cases hpu : p u
      · rw [List.find?_cons_of_pos _ hpu, List.find?_cons_of_pos _ hpu]
      · rw [List.find?_cons_of_neg _ hpu, List.find?_cons_of_neg _ hpu]
        exact ih

theorem find?_updateOneUser_of_disjoint (q p : UserRecord → Bool)
    (f : UserRecord → UserRecord)
    (h : ∀ u, q u = true → p u = false ∧ p (f u) = false) (us : List UserRecord) :
    (updateOneUser q f us).find? p = us.find? p := by
  induction us with
  | nil => rfl
  | cons u us ih =>
    by_cases hqu : q u
    · simp only [updateOneUser, if_pos hqu]
      rw [List.find?_cons_of_neg _ (by simp [(h u hqu).2]),
          List.find?_cons_of_neg _ (by simp [(h u hqu).1])]
    · simp only [updateOneUser, if_neg hqu]
      by_cases hpu : p u
      · rw [List.find?_cons_of_pos _ hpu, List.find?_cons_of_pos _ hpu]
      · rw [List.find?_cons_of_neg _ hpu, List.find?_cons_of_neg _ hpu]
        exact ih

theorem find?_updateOneUser_isSome_of_found (q p : UserRecord → Bool)
    (f : UserRecord → UserRecord) (us : List UserRecord) :
    ∀ u0 : UserRecord, us.find? q = some u0 → p u0 = false →
      (us.find? p).isSome = true → ((updateOneUser q f us).find? p).isSome = true := by
  induction us with
  | nil => intro u0 h; simp [List.find?] at h
  | cons u us ih =>
    intro u0 hq0 hp0 hsome
    by_cases hqu : q u
    · rw [List.find?_cons_of_pos _ hqu] at hq0
      injection hq0 with hq0
      subst hq0
      simp only [updateOneUser, if_pos hqu]
      by_cases hpf : p (f u)
      · rw [List.find?_cons_of_pos _ hpf]
        rfl
      · rw [List.find?_cons_of_neg _ hpf]
        rw [List.find?_cons_of_neg _ (by simp [hp0])] at hsome
        exact hsome
    · rw [List.find?_cons_of_neg _ hqu] at hq0
      simp only [updateOneUser, if_neg hqu]
      by_cases hpu : p u
      · rw [List.find?_cons_of_pos _ hpu]
        rfl
      · rw [List.find?_cons_of_neg _ hpu] at hsome
        rw [List.find?_cons_of_neg _ hpu]
        exact ih u0 hq0 hp0 hsome

theorem countP_updateOneUser (p : UserRecord → Bool) (f : UserRecord → UserRecord)
    (h : ∀ u, p u = true → p (f u) = false) (us : List UserRecord) :
    (updateOneUser p f us).countP p = us.countP p - 1 := by
  induction us with
  | nil => rfl
  | cons u us ih =>
    by_cases hpu : p u
    · simp only [updateOneUser, if_pos hpu]
      rw [List.countP_cons, List.countP_cons]
      simp [h u hpu, hpu]
    · have hpu2 : p u = false := by simpa using hpu
      simp only [updateOneUser, if_neg hpu]
      rw [List.countP_cons, List.countP_cons, ih]
      simp only [hpu2, if_false, Bool.false_eq_true]
      omega

theorem map_updateOneUser {β : Type} (q : UserRecord → Bool)
    (f : UserRecord → UserRecord) (g : UserRecord → β) (hg : ∀ u, g (f u) = g u)
    (us : List UserRecord) : (updateOneUser q f us).map g = us.map g := by
  induction us with
  | nil => rfl
  | cons u us ih =>
    by_cases hqu : q u
    · simp [updateOneUser, hqu, hg u]
    · simp [updateOneUser, hqu, ih]

theorem dataChanged_self (c : UserPayload) : dataChanged c c = false := by
  simp [dataChanged]

theorem dataChanged_eq_false_iff (c p : UserPayload) :
    dataChanged c p = false ↔
      (c.name = p.name ∧ c.email = p.email ∧ c.phone = p.phone ∧
       c.resetTokenUsed = p.resetTokenUsed ∧ c.resetTokenTime = p.resetTokenTime) := by
  simp [dataChanged]
  tauto

theorem resolveSession_absent (s : ServerState) (t : String)
    (h : cacheGet s.cache t = none) :
    resolveSession s t =
      ({ s with users := updateOneUser (fun u => u.sessionKey == some t)
                           (fun u => { u with sessionKey := none }) s.users },
       SessionResult.expired) := by
  unfold resolveSession
  rw [h]

theorem resolveSession_repair (s : ServerState) (t : String) (c : UserPayload)
    (e : Nat) (u : UserRecord)
    (h1 : cacheGet s.cache t = some (c, e))
    (h2 : findOneUser (fun v => v.sessionKey == some t) s.users = some u)
    (h3 : dataChanged c (buildUserPayload u) = true) :
    resolveSession s t =
      ({ s with cache := cacheSet (cacheDel s.cache t) t (buildUserPayload u) (s.now + TTL90) },
       SessionResult.ok (buildUserPayload u)) := by
  unfold resolveSession
  rw [h1]
  dsimp only
  rw [h2]
  dsimp only
  rw [if_pos h3]

theorem resolveSession_fast (s : ServerState) (t : String) (c : UserPayload)
    (e : Nat) (u : UserRecord)
    (h1 : cacheGet s.cache t = some (c, e))
    (h2 : findOneUser (fun v => v.sessionKey == some t) s.users = some u)
    (h3 : dataChanged c (buildUserPayload u) = false) :
    resolveSession s t = (s, SessionResult.ok c) := by
  unfold resolveSession
  rw [h1]
  dsimp only
  rw [h2]
  dsimp only
  rw [if_neg (by simp [h3])]

theorem resolveSession_orphan (s : ServerState) (t : String) (c : UserPayload) (e : Nat)
    (h1 : cacheGet s.cache t = some (c, e))
    (h2 : findOneUser (fun v => v.sessionKey == some t) s.users = none) :
    resolveSession s t = (s, SessionResult.invalidSession) := by
  unfold resolveSession
  rw [h1]
  dsimp only
  rw [h2]

theorem login_hit (s : ServerState) (e pw : String) (u : UserRecord) (k : String)
    (x : UserPayload × Nat)
    (hu : findOneUser (fun v => v.email == jsToLower e) s.users = some u)
    (hc : bcryptCompare pw u.password = true)
    (hk : u.sessionKey = some k)
    (hx : cacheGet s.cache k = some x) :
    login s e pw =
      (s, LoginResult.ok
            { message := "Login successful", sessionKey := k,
              userid := u.userid, name := u.name, success := true }) := by
  unfold login
  rw [hu]
  dsimp only
  rw [if_pos hc, hk]
  dsimp only
  rw [hx]

theorem login_fresh (s : ServerState) (e pw : String) (u : UserRecord)
    (hu : findOneUser (fun v => v.email == jsToLower e) s.users = some u)
    (hc : bcryptCompare pw u.password = true)
    (hmiss : ∀ k, u.sessionKey = some k → cacheGet s.cache k = none) :
    login s e pw =
      ({ s with
          users := updateOneUser (fun v => v.email == jsToLower e)
                     (fun v => { v with sessionKey := some (deriveToken (buildUserPayload u)) })
                     s.users
          cache := cacheSet s.cache (deriveToken (buildUserPayload u))
                     (buildUserPayload u) (s.now + TTL90) },
       LoginResult.ok
         { message := "Login successful",
           sessionKey := deriveToken (buildUserPayload u),
           userid := u.userid, name := u.name, success := true }) := by
  unfold login
  rw [hu]
  dsimp only
  rw [if_pos hc]
  cases hsk : u.sessionKey with
  | none => rfl
  | some k =>
    dsimp only
    rw [hmiss k hsk]

theorem updateProfile_notFound (s : ServerState) (t n ph : String)
    (h : findOneUser (fun v => v.sessionKey == some t) s.users = none) :
    updateProfile s t n ph = (s, UpdateResult.notFound) := by
  unfold updateProfile
  rw [h]

theorem updateProfile_expired (s : ServerState) (t n ph : String) (u : UserRecord)
    (hu : findOneUser (fun v => v.sessionKey == some t) s.users = some u)
    (hc : cacheGet s.cache t = none) :
    updateProfile s t n ph =
      ({ s with users := updateOneUser (fun v => v.sessionKey == some t)
                           (fun v => { v with sessionKey := none }) s.users },
       UpdateResult.expired) := by
  unfold updateProfile
  rw [hu]
  dsimp only
  rw [hc]

theorem updateProfile_ok_spec (s : ServerState) (t n ph : String) (u0 : UserRecord)
    (x : UserPayload × Nat)
    (hu : findOneUser (fun v => v.sessionKey == some t) s.users = some u0)
    (hc : cacheGet s.cache t = some x) :
    updateProfile s t n ph =
      ({ s with
          users := updateOneUser (fun v => v.sessionKey == some t)
                     (fun v => { v with name := n, phone := ph }) s.users
          cache := cacheSet s.cache t
                     (buildUserPayload { u0 with name := n, phone := ph })
                     (s.now + TTL90) },
       UpdateResult.ok (buildUserPayload { u0 with name := n, phone := ph })) := by
  unfold updateProfile
  rw [hu]
  dsimp only
  rw [hc]
  dsimp only
  simp only [findOneUser] at hu ⊢
  rw [find?_updateOneUser_self (fun v => v.sessionKey == some t)
        (fun v => { v with name := n, phone := ph }) (fun u h => h) s.users u0 hu]

theorem login_notFound (s : ServerState) (e pw : String)
    (h : findOneUser (fun v => v.email == jsToLower e) s.users = none) :
    login s e pw = (s, LoginResult.userNotFound) := by
  unfold login
  rw [h]

theorem login_badCreds (s : ServerState) (e pw : String) (u : UserRecord)
    (hu : findOneUser (fun v => v.email == jsToLower e) s.users = some u)
    (hc : bcryptCompare pw u.password = false) :
    login s e pw = (s, LoginResult.invalidCredentials) := by
  unfold login
  rw [hu]
  dsimp only
  rw [if_neg (by simp [hc])]

theorem updateProfile_ok_inv (s : ServerState) (t n ph : String) (pl : UserPayload)
    (h : (updateProfile s t n ph).2 = UpdateResult.ok pl) :
    ∃ u0 x, findOneUser (fun v => v.sessionKey == some t) s.users = some u0 ∧
      cacheGet s.cache t = some x ∧
      pl = buildUserPayload { u0 with name := n, phone := ph } := by
  cases hfu : findOneUser (fun v => v.sessionKey == some t) s.users with
  | none =>
    rw [updateProfile_notFound s t n ph hfu] at h
    cases h
  | some u0 =>
    cases hc : cacheGet s.cache t with
    | none =>
      rw [updateProfile_expired s t n ph u0 hfu hc] at h
      cases h
    | some x =>
      rw [updateProfile_ok_spec s t n ph u0 x hfu hc] at h
      injection h with h
      exact ⟨u0, x, rfl, rfl, h.symm⟩

theorem passwordChange_ok_inv (s : ServerState) (req : PwChangeRequest) (s' : ServerState)
    (h : passwordChange s req = (s', PwResult.ok)) :
    ∃ uid u0, req.userid = some uid ∧
      findOneUser (fun u => u.userid == uid) s.users = some u0 ∧
      bcryptCompare (req.currentPassword.getD "") u0.password = true ∧
      s' = { s with users := updateOneUser (fun u => u.userid == uid) (fun u => { u with password := bcryptHash 12 (req.newPassword.getD ""), passwordChangedAt := some s.now }) s.users } := by
  unfold passwordChange at h
  split at h
  · cases h
  · split at h
    · cases h
    · split at h
      · cases h
      · rename_i hnf
        dsimp only at h
        split at h
        · cases h
        · rename_i u0 hfind
          split at h
          · cases h
          · rename_i hcmp
            split at h
            · cases h
            · injection h with h1 h2
              refine ⟨req.userid.getD "", u0, ?_, hfind, ?_, h1.symm⟩
              · cases hid : req.userid with
                | none => rw [hid] at hnf; simp [isFalsyStr] at hnf
                | some a => rfl
              · simpa using hcmp

theorem register_missingFields (s : ServerState) (req : RegisterRequest) (uid : String)
    (h : (isFalsyStr req.name || isFalsyStr req.email || isFalsyStr req.phone ||
          isFalsyStr req.password) = true) :
    registerUser s req uid = (s, RegisterResult.missingFields) := by
  unfold registerUser
  rw [if_pos h]

theorem register_duplicate (s : ServerState) (req : RegisterRequest) (uid : String)
    (h1 : (isFalsyStr req.name || isFalsyStr req.email || isFalsyStr req.phone ||
           isFalsyStr req.password) = false)
    (h2 : s.users.any (fun u => u.email == jsToLower (req.email.getD "")) = true) :
    registerUser s req uid = (s, RegisterResult.duplicateEmail) := by
  unfold registerUser
  rw [if_neg (by simp [h1])]
  dsimp only
  rw [if_pos h2]

theorem register_created (s : ServerState) (req : RegisterRequest) (uid : String)
    (h1 : (isFalsyStr req.name || isFalsyStr req.email || isFalsyStr req.phone ||
           isFalsyStr req.password) = false)
    (h2 : s.users.any (fun u => u.email == jsToLower (req.email.getD "")) = false) :
    registerUser s req uid =
      ({ s with users := s.users ++ [newConsumer s req uid] }, RegisterResult.created) := by
  unfold registerUser
  rw [if_neg (by simp [h1])]
  dsimp only
  rw [if_neg (by simp [h2])]

/-! ## Claims -/

/-- C2: fast-path no-write — when the cached projection equals the projection
built from the matching durable record, `resolveSession` returns the cached
projection verbatim and performs no write at all: the whole state (hence the
cache entry content and its expiry) is unchanged. -/
theorem claim_C2_fast_path_no_write (s : ServerState) (t : String) (c : UserPayload)
    (e : Nat) (u : UserRecord)
    (h1 : cacheGet s.cache t = some (c, e))
    (h2 : findOneUser (fun v => v.sessionKey == some t) s.users = some u)
    (h3 : dataChanged c (buildUserPayload u) = false) :
    (resolveSession s t).2 = SessionResult.ok c ∧
    (resolveSession s t).1 = s ∧
    cacheGet (resolveSession s t).1.cache t = some (c, e) := by
  rw [resolveSession_fast s t c e u h1 h2 h3]
  exact ⟨rfl, rfl, h1⟩

theorem claim_C2_fast_path_no_write_witness :
    (resolveSession wState "tok").2 = SessionResult.ok (buildUserPayload wUser) ∧
    (resolveSession wState "tok").1 = wState ∧
    cacheGet (resolveSession wState "tok").1.cache "tok" =
      some (buildUserPayload wUser, 77) :=
  claim_C2_fast_path_no_write wState "tok" (buildUserPayload wUser) 77 wUser
    (by decide) (by decide) (by decide)

/-- C3: the drift check compares exactly the five fields name, email, phone,
resetTokenUsed, resetTokenTime by value equality; userid and createdAt are
excluded, so a change to any single one of the five (and only those) makes
`dataChanged` report drift. -/
theorem claim_C3_staleness_fields (c p : UserPayload) :
    (dataChanged c p = false ↔
      (c.name = p.name ∧ c.email = p.email ∧ c.phone = p.phone ∧
       c.resetTokenUsed = p.resetTokenUsed ∧ c.resetTokenTime = p.resetTokenTime)) ∧
    (∀ x y, dataChanged { c with userid := x, createdAt := y } p = dataChanged c p) ∧
    (∀ x y, dataChanged { p with userid := x, createdAt := y } p = false) ∧
    (∀ v, v ≠ p.name → dataChanged { p with name := v } p = true) ∧
    (∀ v, v ≠ p.email → dataChanged { p with email := v } p = true) ∧
    (∀ v, v ≠ p.phone → dataChanged { p with phone := v } p = true) ∧
    (∀ b, b ≠ p.resetTokenUsed → dataChanged { p with resetTokenUsed := b } p = true) ∧
    (∀ ti, ti ≠ p.resetTokenTime → dataChanged { p with resetTokenTime := ti } p = true) := by
  refine ⟨dataChanged_eq_false_iff c p, ?_, ?_, ?_, ?_, ?_, ?_, ?_⟩
  · intro x y; simp [dataChanged]
  · intro x y; simp [dataChanged]
  · intro v hv; simp [dataChanged, hv]
  · intro v hv; simp [dataChanged, hv]
  · intro v hv; simp [dataChanged, hv]
  · intro b hb; simp [dataChanged, hb]
  · intro ti hti; simp [dataChanged, hti]

theorem claim_C3_staleness_fields_witness :
    dataChanged (buildUserPayload wUser) (buildUserPayload wUser) = false ∧
    dataChanged { buildUserPayload wUser with name := "Bob" } (buildUserPayload wUser) = true ∧
    dataChanged { buildUserPayload wUser with userid := "zz", createdAt := 9 }
      (buildUserPayload wUser) = false := by
  have h := claim_C3_staleness_fields (buildUserPayload wUser) (buildUserPayload wUser)
  exact ⟨h.1.mpr ⟨rfl, rfl, rfl, rfl, rfl⟩,
         h.2.2.2.1 "Bob" (by decide),
         h.2.2.1 "zz" 9⟩

/-- C9: register fails with 400 when any of the four fields is missing; with
all fields present and all stored emails lowercase-normalized, it fails with
409 exactly when some stored email equals the new email case-insensitively,
and otherwise succeeds with 201, appending a record whose email is stored
lowercased. -/
theorem claim_C9_register_validation (s : ServerState) (req : RegisterRequest)
    (uid : String) :
    ((isFalsyStr req.name || isFalsyStr req.email || isFalsyStr req.phone ||
      isFalsyStr req.password) = true →
      registerUser s req uid = (s, RegisterResult.missingFields) ∧
      RegisterResult.missingFields.status = 400) ∧
    ((isFalsyStr req.name || isFalsyStr req.email || isFalsyStr req.phone ||
      isFalsyStr req.password) = false →
      (∀ u ∈ s.users, jsToLower u.email = u.email) →
      ((∃ u ∈ s.users, jsToLower u.email = jsToLower (req.email.getD "")) →
        registerUser s req uid = (s, RegisterResult.duplicateEmail) ∧
        RegisterResult.duplicateEmail.status = 409) ∧
      ((∀ u ∈ s.users, jsToLower u.email ≠ jsToLower (req.email.getD "")) →
        registerUser s req uid =
          ({ s with users := s.users ++ [newConsumer s req uid] },
           RegisterResult.created) ∧
        RegisterResult.created.status = 201 ∧
        (newConsumer s req uid).email = jsToLower (req.email.getD ""))) := by
  constructor
  · intro h
    exact ⟨register_missingFields s req uid h, rfl⟩
  · intro h1 hnorm
    constructor
    · rintro ⟨u, hu, he⟩
      have hany : s.users.any (fun v => v.email == jsToLower (req.email.getD "")) = true := by
        refine List.any_eq_true.mpr ⟨u, hu, ?_⟩
        refine beq_iff_eq.mpr ?_
        rw [← hnorm u hu]
        exact he
      exact ⟨register_duplicate s req uid h1 hany, rfl⟩
    · intro hno
      have hany : s.users.any (fun v => v.email == jsToLower (req.email.getD "")) = false := by
        refine List.any_eq_false.mpr ?_
        intro u hu hbe
        have he : u.email = jsToLower (req.email.getD "") := beq_iff_eq.mp hbe
        exact hno u hu (by rw [hnorm u hu]; exact he)
      exact ⟨register_created s req uid h1 hany, rfl, rfl⟩

theorem claim_C9_register_validation_witness :
    (registerUser wState { wRegReq with password := none } "u-2" =
      (wState, RegisterResult.missingFields)) ∧
    (registerUser wState wRegReq "u-2" = (wState, RegisterResult.duplicateEmail)) ∧
    (registerUser wFreshState { wRegReq with email := some "B@y.com" } "u-2" =
      ({ wFreshState with
          users := wFreshState.users ++
            [newConsumer wFreshState { wRegReq with email := some "B@y.com" } "u-2"] },
       RegisterResult.created)) := by
  refine ⟨?_, ?_, ?_⟩
  · exact ((claim_C9_register_validation wState { wRegReq with password := none } "u-2").1
      (by decide)).1
  · exact (((claim_C9_register_validation wState wRegReq "u-2").2 (by decide)
      (by decide)).1 ⟨wUser, by decide, by decide⟩).1
  · exact (((claim_C9_register_validation wFreshState
      { wRegReq with email := some "B@y.com" } "u-2").2 (by decide) (by decide)).2
      (by decide)).1

/-- C1: read-repair on stale sessions — with a cache entry present that
differs (on the compared fields) from the projection buildable from the
durable record holding the same sessionKey, `resolveSession` overwrites the
entry under the same token with the current projection and a refreshed
90-day TTL and returns the current projection; consequently, after any
successful `updateProfile`, the first subsequent `resolveSession` on that
token returns a projection reflecting the mutation and leaves the cache
entry equal to the projection of the durable record. -/
theorem claim_C1_read_repair (s : ServerState) (t : String) :
    (∀ c e u, cacheGet s.cache t = some (c, e) →
      findOneUser (fun v => v.sessionKey == some t) s.users = some u →
      dataChanged c (buildUserPayload u) = true →
      (resolveSession s t).2 = SessionResult.ok (buildUserPayload u) ∧
      cacheGet (resolveSession s t).1.cache t =
        some (buildUserPayload u, s.now + TTL90) ∧
      (resolveSession s t).1.users = s.users) ∧
    (∀ n ph pl, (updateProfile s t n ph).2 = UpdateResult.ok pl →
      (resolveSession (updateProfile s t n ph).1 t).2 = SessionResult.ok pl ∧
      pl.name = n ∧ pl.phone = ph ∧
      (resolveSession (updateProfile s t n ph).1 t).1 = (updateProfile s t n ph).1 ∧
      cacheGet (updateProfile s t n ph).1.cache t = some (pl, s.now + TTL90) ∧
      (∃ u, findOneUser (fun v => v.sessionKey == some t)
              (updateProfile s t n ph).1.users = some u ∧
            buildUserPayload u = pl)) := by
  constructor
  · intro c e u h1 h2 h3
    rw [resolveSession_repair s t c e u h1 h2 h3]
    exact ⟨rfl, cacheGet_set_self _ t _ _, rfl⟩
  · intro n ph pl h
    obtain ⟨u0, x, hfu, hc, hpl⟩ := updateProfile_ok_inv s t n ph pl h
    rw [updateProfile_ok_spec s t n ph u0 x hfu hc]
    have hfind : findOneUser (fun v => v.sessionKey == some t)
        (updateOneUser (fun v => v.sessionKey == some t)
          (fun v => { v with name := n, phone := ph }) s.users) =
        some { u0 with name := n, phone := ph } := by
      simp only [findOneUser] at hfu ⊢
      exact find?_updateOneUser_self (fun v => v.sessionKey == some t)
        (fun v => { v with name := n, phone := ph }) (fun u h => h) s.users u0 hfu
    have hcg : cacheGet
        (cacheSet s.cache t (buildUserPayload { u0 with name := n, phone := ph })
          (s.now + TTL90)) t =
        some (buildUserPayload { u0 with name := n, phone := ph }, s.now + TTL90) :=
      cacheGet_set_self _ t _ _
    have hfast := resolveSession_fast
      ({ s with
          users := updateOneUser (fun v => v.sessionKey == some t)
                     (fun v => { v with name := n, phone := ph }) s.users
          cache := cacheSet s.cache t
                     (buildUserPayload { u0 with name := n, phone := ph })
                     (s.now + TTL90) })
      t (buildUserPayload { u0 with name := n, phone := ph }) (s.now + TTL90)
      { u0 with name := n, phone := ph } hcg hfind (dataChanged_self _)
    rw [hfast]
    subst hpl
    exact ⟨rfl, rfl, rfl, rfl, hcg, ⟨{ u0 with name := n, phone := ph }, hfind, rfl⟩⟩

theorem claim_C1_read_repair_witness :
    ((resolveSession wStaleState "tok").2 = SessionResult.ok (buildUserPayload wUser) ∧
     cacheGet (resolveSession wStaleState "tok").1.cache "tok" =
       some (buildUserPayload wUser, wStaleState.now + TTL90) ∧
     (resolveSession wStaleState "tok").1.users = wStaleState.users) ∧
    ((resolveSession (updateProfile wState "tok" "Bob" "222").1 "tok").2 =
       SessionResult.ok (buildUserPayload { wUser with name := "Bob", phone := "222" })) := by
  constructor
  · exact (claim_C1_read_repair wStaleState "tok").1
      { buildUserPayload wUser with name := "Old" } 77 wUser
      (by decide) (by decide) (by decide)
  · exact ((claim_C1_read_repair wState "tok").2 "Bob" "222"
      (buildUserPayload { wUser with name := "Bob", phone := "222" }) (by decide)).1

/-- C6: updateProfile contract — no durable record holding the token gives
NotFound (404); a record without a live cache entry gets its sessionKey
cleared and gives SessionExpired (401); otherwise only name and phone are
applied to the durable record, the cache entry under the same token is
unconditionally overwritten with the rebuilt projection and a refreshed
90-day TTL, and the new projection is returned. -/
theorem claim_C6_updateProfile_contract (s : ServerState) (t n ph : String) :
    (findOneUser (fun v => v.sessionKey == some t) s.users = none →
      updateProfile s t n ph = (s, UpdateResult.notFound) ∧
      UpdateResult.notFound.status = 404) ∧
    (∀ u, findOneUser (fun v => v.sessionKey == some t) s.users = some u →
      cacheGet s.cache t = none →
      (updateProfile s t n ph).2 = UpdateResult.expired ∧
      UpdateResult.expired.status = 401 ∧
      ((updateProfile s t n ph).1.users.countP (fun v => v.sessionKey == some t) =
        s.users.countP (fun v => v.sessionKey == some t) - 1) ∧
      (updateProfile s t n ph).1.cache = s.cache) ∧
    (∀ u0 x, findOneUser (fun v => v.sessionKey == some t) s.users = some u0 →
      cacheGet s.cache t = some x →
      (updateProfile s t n ph).2 =
        UpdateResult.ok (buildUserPayload { u0 with name := n, phone := ph }) ∧
      findOneUser (fun v => v.sessionKey == some t) (updateProfile s t n ph).1.users =
        some { u0 with name := n, phone := ph } ∧
      cacheGet (updateProfile s t n ph).1.cache t =
        some (buildUserPayload { u0 with name := n, phone := ph }, s.now + TTL90) ∧
      (∀ k, k ≠ t →
        cacheGet (updateProfile s t n ph).1.cache k = cacheGet s.cache k) ∧
      ((updateProfile s t n ph).1.users.map
          (fun v => (v.userid, v.email, v.password, v.sessionKey, v.resetTokenUsed,
                     v.resetTokenTime, v.passwordChangedAt, v.createdAt)) =
        s.users.map
          (fun v => (v.userid, v.email, v.password, v.sessionKey, v.resetTokenUsed,
                     v.resetTokenTime, v.passwordChangedAt, v.createdAt)))) := by
  refine ⟨?_, ?_, ?_⟩
  · intro h
    exact ⟨updateProfile_notFound s t n ph h, rfl⟩
  · intro u hu hc
    rw [updateProfile_expired s t n ph u hu hc]
    refine ⟨rfl, rfl, ?_, rfl⟩
    exact countP_updateOneUser (fun v => v.sessionKey == some t)
      (fun v => { v with sessionKey := none }) (fun u _ => by simp) s.users
  · intro u0 x hu hc
    rw [updateProfile_ok_spec s t n ph u0 x hu hc]
    refine ⟨rfl, ?_, cacheGet_set_self _ t _ _, ?_, ?_⟩
    · simp only [findOneUser] at hu ⊢
      exact find?_updateOneUser_self (fun v => v.sessionKey == some t)
        (fun v => { v with name := n, phone := ph }) (fun u h => h) s.users u0 hu
    · intro k hk
      exact cacheGet_set_ne s.cache t k _ _ hk
    · exact map_updateOneUser (fun v => v.sessionKey == some t)
        (fun v => { v with name := n, phone := ph })
        (fun v => (v.userid, v.email, v.password, v.sessionKey, v.resetTokenUsed,
                   v.resetTokenTime, v.passwordChangedAt, v.createdAt))
        (fun u => rfl) s.users

theorem claim_C6_updateProfile_contract_witness :
    (updateProfile wFreshState "tok" "Bob" "222" = (wFreshState, UpdateResult.notFound)) ∧
    ((updateProfile wNoCacheState "tok" "Bob" "222").2 = UpdateResult.expired ∧
     (updateProfile wNoCacheState "tok" "Bob" "222").1.users.countP
        (fun v => v.sessionKey == some "tok") =
       wNoCacheState.users.countP (fun v => v.sessionKey == some "tok") - 1) ∧
    ((updateProfile wState "tok" "Bob" "222").2 =
       UpdateResult.ok (buildUserPayload { wUser with name := "Bob", phone := "222" }) ∧
     cacheGet (updateProfile wState "tok" "Bob" "222").1.cache "tok" =
       some (buildUserPayload { wUser with name := "Bob", phone := "222" },
             wState.now + TTL90)) := by
  refine ⟨?_, ?_, ?_⟩
  · exact ((claim_C6_updateProfile_contract wFreshState "tok" "Bob" "222").1 (by decide)).1
  · have h := (claim_C6_updateProfile_contract wNoCacheState "tok" "Bob" "222").2.1
      wUser (by decide) (by decide)
    exact ⟨h.1, h.2.2.1⟩
  · have h := (claim_C6_updateProfile_contract wState "tok" "Bob" "222").2.2
      wUser (buildUserPayload wUser, 77) (by decide) (by decide)
    exact ⟨h.1, h.2.2.1⟩

/-- C5: login session reuse vs. creation — with verified credentials, if the
record has a non-null sessionKey whose cache entry is present, login returns
that token and writes neither the durable store nor the cache; otherwise it
builds a fresh projection from the durable fields (defaulting resetTokenUsed
to false and resetTokenTime to null when unset), derives a new token from it,
persists the new sessionKey on the record, and writes the projection into the
cache with a 90-day expiry. -/
theorem claim_C5_login_reuse_or_create (s : ServerState) (e pw : String) :
    (∀ u k x, findOneUser (fun v => v.email == jsToLower e) s.users = some u →
      bcryptCompare pw u.password = true →
      u.sessionKey = some k → cacheGet s.cache k = some x →
      login s e pw =
        (s, LoginResult.ok
              { message := "Login successful", sessionKey := k,
                userid := u.userid, name := u.name, success := true })) ∧
    (∀ u, findOneUser (fun v => v.email == jsToLower e) s.users = some u →
      bcryptCompare pw u.password = true →
      (u.sessionKey = none ∨
        ∃ k, u.sessionKey = some k ∧ cacheGet s.cache k = none) →
      (login s e pw).2 =
        LoginResult.ok
          { message := "Login successful",
            sessionKey := deriveToken (buildUserPayload u),
            userid := u.userid, name := u.name, success := true } ∧
      cacheGet (login s e pw).1.cache (deriveToken (buildUserPayload u)) =
        some (buildUserPayload u, s.now + TTL90) ∧
      findOneUser (fun v => v.email == jsToLower e) (login s e pw).1.users =
        some { u with sessionKey := some (deriveToken (buildUserPayload u)) } ∧
      (u.resetTokenUsed = none → (buildUserPayload u).resetTokenUsed = false) ∧
      (u.resetTokenTime = none → (buildUserPayload u).resetTokenTime = none)) := by
  constructor
  · intro u k x hu hcmp hk hx
    exact login_hit s e pw u k x hu hcmp hk hx
  · intro u hu hcmp hmiss
    have hm : ∀ k, u.sessionKey = some k → cacheGet s.cache k = none := by
      intro k hk
      rcases hmiss with h | ⟨k2, hk2, hc2⟩
      · rw [h] at hk; cases hk
      · rw [hk2] at hk
        injection hk with hk
        rw [← hk]
        exact hc2
    rw [login_fresh s e pw u hu hcmp hm]
    refine ⟨rfl, cacheGet_set_self _ _ _ _, ?_, ?_, ?_⟩
    · simp only [findOneUser] at hu ⊢
      exact find?_updateOneUser_self (fun v => v.email == jsToLower e)
        (fun v => { v with sessionKey := some (deriveToken (buildUserPayload u)) })
        (fun v h => h) s.users u hu
    · intro h; simp [buildUserPayload, h]
    · intro h; simp [buildUserPayload, h, jsOrNull]

theorem claim_C5_login_reuse_or_create_witness :
    (login wState "A@x.Com" "hunter2000" =
      (wState, LoginResult.ok
        { message := "Login successful", sessionKey := "tok",
          userid := wUser.userid, name := wUser.name, success := true })) ∧
    ((login wFreshState "a@x.com" "hunter2000").2 =
      LoginResult.ok
        { message := "Login successful",
          sessionKey := deriveToken (buildUserPayload wFreshUser),
          userid := wFreshUser.userid, name := wFreshUser.name, success := true } ∧
     cacheGet (login wFreshState "a@x.com" "hunter2000").1.cache
        (deriveToken (buildUserPayload wFreshUser)) =
       some (buildUserPayload wFreshUser, wFreshState.now + TTL90)) := by
  constructor
  · exact (claim_C5_login_reuse_or_create wState "A@x.Com" "hunter2000").1
      wUser "tok" (buildUserPayload wUser, 77) (by decide) (by decide) (by decide)
      (by decide)
  · have h := (claim_C5_login_reuse_or_create wFreshState "a@x.com" "hunter2000").2
      wFreshUser (by decide) (by decide) (Or.inl (by decide))
    exact ⟨h.1, h.2.1⟩

theorem find?_map_users (g : UserRecord → UserRecord) (p : UserRecord → Bool)
    (hp : ∀ u, p (g u) = p u) (us : List UserRecord) :
    (us.map g).find? p = (us.find? p).map g := by
  rw [List.find?_map]
  have h : p ∘ g = p := funext hp
  rw [h]

/-- C8: every successful login response consists of the success message, the
session token, and the public fields userid and name of the user; the token
is live in the cache and pointed at by the record; and the response depends
on the stored password verifier only through the password it verifies (so
the verifier itself is never part of the response). -/
theorem claim_C8_login_response (s : ServerState) (e pw : String) :
    (∀ s' r, login s e pw = (s', LoginResult.ok r) →
      r.message = "Login successful" ∧ r.success = true ∧
      ∃ u, findOneUser (fun v => v.email == jsToLower e) s.users = some u ∧
        bcryptCompare pw u.password = true ∧
        r.userid = u.userid ∧ r.name = u.name ∧
        (cacheGet s'.cache r.sessionKey).isSome = true ∧
        (∃ v, findOneUser (fun w => w.email == jsToLower e) s'.users = some v ∧
              v.sessionKey = some r.sessionKey)) ∧
    (login (scrubState s) e pw).2 = (login s e pw).2 := by
  constructor
  · intro s' r h
    cases hfu : findOneUser (fun v => v.email == jsToLower e) s.users with
    | none =>
      rw [login_notFound s e pw hfu] at h
      simp [Prod.ext_iff] at h
    | some u =>
      cases hcmp : bcryptCompare pw u.password with
      | false =>
        rw [login_badCreds s e pw u hfu hcmp] at h
        simp [Prod.ext_iff] at h
      | true =>
        cases hsk : u.sessionKey with
        | some k =>
          cases hx : cacheGet s.cache k with
          | some x =>
            rw [login_hit s e pw u k x hfu hcmp hsk hx] at h
            injection h with h1 h2
            injection h2 with h2
            subst h1
            subst h2
            refine ⟨rfl, rfl, u, rfl, hcmp, rfl, rfl, ?_, u, hfu, hsk⟩
            rw [hx]
            rfl
          | none =>
            have hm : ∀ k2, u.sessionKey = some k2 → cacheGet s.cache k2 = none := by
              intro k2 hk2
              rw [hsk] at hk2
              injection hk2 with hk2
              rw [← hk2]
              exact hx
            rw [login_fresh s e pw u hfu hcmp hm] at h
            injection h with h1 h2
            injection h2 with h2
            subst h1
            subst h2
            refine ⟨rfl, rfl, u, rfl, hcmp, rfl, rfl, ?_, ?_⟩
            · rw [cacheGet_set_self]
              rfl
            · refine ⟨{ u with sessionKey := some (deriveToken (buildUserPayload u)) }, ?_, rfl⟩
              simp only [findOneUser] at hfu ⊢
              exact find?_updateOneUser_self (fun v => v.email == jsToLower e)
                (fun v => { v with sessionKey := some (deriveToken (buildUserPayload u)) })
                (fun v hv => hv) s.users u hfu
        | none =>
          have hm : ∀ k2, u.sessionKey = some k2 → cacheGet s.cache k2 = none := by
            intro k2 hk2
            rw [hsk] at hk2
            cases hk2
          rw [login_fresh s e pw u hfu hcmp hm] at h
          injection h with h1 h2
          injection h2 with h2
          subst h1
          subst h2
          refine ⟨rfl, rfl, u, rfl, hcmp, rfl, rfl, ?_, ?_⟩
          · rw [cacheGet_set_self]
            rfl
          · refine ⟨{ u with sessionKey := some (deriveToken (buildUserPayload u)) }, ?_, rfl⟩
            simp only [findOneUser] at hfu ⊢
            exact find?_updateOneUser_self (fun v => v.email == jsToLower e)
              (fun v => { v with sessionKey := some (deriveToken (buildUserPayload u)) })
              (fun v hv => hv) s.users u hfu
  · have hfind := find?_map_users
      (fun v => { v with password := bcryptHash 0 v.password.ofPassword })
      (fun v => v.email == jsToLower e) (fun v => rfl) s.users
    cases hfu : findOneUser (fun v => v.email == jsToLower e) s.users with
    | none =>
      have hfu2 : findOneUser (fun v => v.email == jsToLower e) (scrubState s).users = none := by
        simp only [findOneUser, scrubState]
        rw [hfind]
        simp only [findOneUser] at hfu
        rw [hfu]
        rfl
      rw [login_notFound s e pw hfu, login_notFound (scrubState s) e pw hfu2]
    | some u =>
      have hfu2 : findOneUser (fun v => v.email == jsToLower e) (scrubState s).users =
          some { u with password := bcryptHash 0 u.password.ofPassword } := by
        simp only [findOneUser, scrubState]
        rw [hfind]
        simp only [findOneUser] at hfu
        rw [hfu]
        rfl
      cases hcmp : bcryptCompare pw u.password with
      | false =>
        rw [login_badCreds s e pw u hfu hcmp,
            login_badCreds (scrubState s) e pw _ hfu2 hcmp]
      | true =>
        cases hsk : u.sessionKey with
        | some k =>
          cases hx : cacheGet s.cache k with
          | some x =>
            rw [login_hit s e pw u k x hfu hcmp hsk hx,
                login_hit (scrubState s) e pw _ k x hfu2 hcmp hsk hx]
          | none =>
            have hm : ∀ k2, u.sessionKey = some k2 → cacheGet s.cache k2 = none := by
              intro k2 hk2
              rw [hsk] at hk2
              injection hk2 with hk2
              rw [← hk2]
              exact hx
            rw [login_fresh s e pw u hfu hcmp hm,
                login_fresh (scrubState s) e pw _ hfu2 hcmp hm]
            rfl
        | none =>
          have hm : ∀ k2, u.sessionKey = some k2 → cacheGet s.cache k2 = none := by
            intro k2 hk2
            rw [hsk] at hk2
            cases hk2
          rw [login_fresh s e pw u hfu hcmp hm,
              login_fresh (scrubState s) e pw _ hfu2 hcmp hm]
          rfl

theorem claim_C8_login_response_witness :
    wLoginOk.message = "Login successful" ∧ wLoginOk.success = true ∧
    ∃ u, findOneUser (fun v => v.email == jsToLower "a@x.com") wState.users = some u ∧
      bcryptCompare "hunter2000" u.password = true ∧
      wLoginOk.userid = u.userid ∧ wLoginOk.name = u.name ∧
      (cacheGet wState.cache wLoginOk.sessionKey).isSome = true ∧
      (∃ v, findOneUser (fun w => w.email == jsToLower "a@x.com") wState.users = some v ∧
            v.sessionKey = some wLoginOk.sessionKey) :=
  (claim_C8_login_response wState "a@x.com" "hunter2000").1 wState wLoginOk (by decide)

/-- C10: a successful password change modifies only the password and
passwordChangedAt fields of the durable record: every other field of every
record, the sessionKey, and the whole session cache are unchanged, so
`resolveSession` gives the very same answer on every token afterwards. -/
theorem claim_C10_password_change_frame (s : ServerState) (req : PwChangeRequest)
    (s' : ServerState) (h : passwordChange s req = (s', PwResult.ok)) :
    s'.cache = s.cache ∧
    s'.users.map framePart = s.users.map framePart ∧
    (∃ uid u0, req.userid = some uid ∧
      findOneUser (fun u => u.userid == uid) s.users = some u0 ∧
      findOneUser (fun u => u.userid == uid) s'.users =
        some { u0 with password := bcryptHash 12 (req.newPassword.getD ""),
                       passwordChangedAt := some s.now }) ∧
    (∀ t, (resolveSession s' t).2 = (resolveSession s t).2) ∧
    (∀ t, sessionLive s' t = sessionLive s t) := by
  obtain ⟨uid, u0, hid, hfu, hcmp, hs⟩ := passwordChange_ok_inv s req s' h
  refine ⟨by rw [hs], ?_, ?_, ?_, ?_⟩
  · rw [hs]
    exact map_updateOneUser (fun u => u.userid == uid)
      (fun u => { u with password := bcryptHash 12 (req.newPassword.getD ""),
                         passwordChangedAt := some s.now })
      framePart (fun u => rfl) s.users
  · refine ⟨uid, u0, hid, hfu, ?_⟩
    rw [hs]
    simp only [findOneUser] at hfu
    exact find?_updateOneUser_self (fun u => u.userid == uid)
      (fun u => { u with password := bcryptHash 12 (req.newPassword.getD ""),
                         passwordChangedAt := some s.now })
      (fun u h => h) s.users u0 hfu
  · intro t
    have hmap := find?_updateOneUser_map (fun u => u.userid == uid)
      (fun v => v.sessionKey == some t)
      (fun u => { u with password := bcryptHash 12 (req.newPassword.getD ""),
                         passwordChangedAt := some s.now })
      buildUserPayload (fun u => rfl) (fun u => rfl) s.users
    cases hcg : cacheGet s.cache t with
    | none =>
      have hcg2 : cacheGet s'.cache t = none := by rw [hs]; exact hcg
      rw [resolveSession_absent s' t hcg2, resolveSession_absent s t hcg]
    | some ce =>
      obtain ⟨c, e⟩ := ce
      have hcg2 : cacheGet s'.cache t = some (c, e) := by rw [hs]; exact hcg
      cases hfp : List.find? (fun v => v.sessionKey == some t) s.users with
      | none =>
        have h2 : findOneUser (fun v => v.sessionKey == some t) s'.users = none := by
          rw [hs]
          rw [hfp] at hmap
          exact Option.map_eq_none'.mp hmap
        rw [resolveSession_orphan s' t c e hcg2 h2,
            resolveSession_orphan s t c e hcg hfp]
      | some u1 =>
        rw [hfp] at hmap
        obtain ⟨u2, hu2, hpay⟩ := Option.map_eq_some'.mp hmap
        have hu2' : findOneUser (fun v => v.sessionKey == some t) s'.users = some u2 := by
          rw [hs]; exact hu2
        cases hd : dataChanged c (buildUserPayload u1) with
        | true =>
          rw [resolveSession_repair s' t c e u2 hcg2 hu2' (by rw [hpay]; exact hd),
              resolveSession_repair s t c e u1 hcg hfp hd]
          simp [hpay]
        | false =>
          rw [resolveSession_fast s' t c e u2 hcg2 hu2' (by rw [hpay]; exact hd),
              resolveSession_fast s t c e u1 hcg hfp hd]
  · intro t
    have hmap := find?_updateOneUser_map (fun u => u.userid == uid)
      (fun v => v.sessionKey == some t)
      (fun u => { u with password := bcryptHash 12 (req.newPassword.getD ""),
                         passwordChangedAt := some s.now })
      buildUserPayload (fun u => rfl) (fun u => rfl) s.users
    have hsome : ((updateOneUser (fun u => u.userid == uid)
        (fun u => { u with password := bcryptHash 12 (req.newPassword.getD ""),
                           passwordChangedAt := some s.now }) s.users).find?
          (fun v => v.sessionKey == some t)).isSome =
        (s.users.find? (fun v => v.sessionKey == some t)).isSome := by
      have h2 := congrArg Option.isSome hmap
      simpa using h2
    simp only [sessionLive, findOneUser]
    rw [hs]
    dsimp only
    rw [hsome]

theorem claim_C10_password_change_frame_witness :
    (passwordChange wState wPwReq).1.cache = wState.cache ∧
    (resolveSession (passwordChange wState wPwReq).1 "tok").2 =
      (resolveSession wState "tok").2 := by
  have h := claim_C10_password_change_frame wState wPwReq
    (passwordChange wState wPwReq).1 (by decide)
  exact ⟨h.1, h.2.2.2.1 "tok"⟩

theorem hexChar_mem (n : Nat) : hexChar n ∈ "0123456789abcdef".toList := by
  unfold hexChar
  unfold List.getD
  cases h : "0123456789abcdef".toList.get? n with
  | none => decide
  | some ch =>
    have hm : ch ∈ "0123456789abcdef".toList := List.get?_mem h
    simpa [Option.getD] using hm

theorem toHex8_length (n : Nat) : (toHex8 n).length = 8 := rfl

theorem toHex8_mem (n : Nat) (ch : Char) (hc : ch ∈ (toHex8 n).toList) :
    ch ∈ "0123456789abcdef".toList := by
  have he : (toHex8 n).toList =
      [hexChar (n / 16 ^ 7 % 16), hexChar (n / 16 ^ 6 % 16),
       hexChar (n / 16 ^ 5 % 16), hexChar (n / 16 ^ 4 % 16),
       hexChar (n / 16 ^ 3 % 16), hexChar (n / 16 ^ 2 % 16),
       hexChar (n / 16 % 16), hexChar (n % 16)] := rfl
  rw [he] at hc
  simp only [List.mem_cons, List.not_mem_nil, or_false] at hc
  rcases hc with h | h | h | h | h | h | h | h <;> (subst h; exact hexChar_mem _)

theorem digestHex_length (h : Hash8) : (digestHex h).length = 64 := by
  simp [digestHex, String.length_append, toHex8_length]

theorem digestHex_mem (h : Hash8) (ch : Char) (hc : ch ∈ (digestHex h).toList) :
    ch ∈ "0123456789abcdef".toList := by
  simp only [digestHex, String.toList, String.data_append, List.mem_append] at hc
  rcases hc with ((((((h1 | h1) | h1) | h1) | h1) | h1) | h1) | h1 <;>
    exact toHex8_mem _ _ h1

/-- C7: token derivation is a pure function of the serialized projection —
equal serializations give equal tokens (in particular deriving twice over the
same projection gives the same token), and every derived token is a
fixed-length (64-character) string of lowercase hexadecimal digits. -/
theorem claim_C7_token_derivation (p q : UserPayload) :
    (serializePayload p = serializePayload q → deriveToken p = deriveToken q) ∧
    (deriveToken p).length = 64 ∧
    (∀ ch ∈ (deriveToken p).toList, ch ∈ "0123456789abcdef".toList) := by
  refine ⟨?_, ?_, ?_⟩
  · intro h
    simp [deriveToken, h]
  · exact digestHex_length _
  · intro ch hc
    exact digestHex_mem _ ch hc

theorem claim_C7_token_derivation_witness :
    deriveToken (buildUserPayload wUser) = deriveToken (buildUserPayload wUser) ∧
    (deriveToken (buildUserPayload wUser)).length = 64 ∧
    (∀ ch ∈ (deriveToken (buildUserPayload wUser)).toList,
      ch ∈ "0123456789abcdef".toList) := by
  have h := claim_C7_token_derivation (buildUserPayload wUser) (buildUserPayload wUser)
  exact ⟨h.1 rfl, h.2.1, h.2.2⟩

theorem find?_updateOneUser_isSome_pres (q p : UserRecord → Bool)
    (f : UserRecord → UserRecord) (hp : ∀ u, p (f u) = p u) (us : List UserRecord) :
    ((updateOneUser q f us).find? p).isSome = (us.find? p).isSome := by
  have h := find?_updateOneUser_map q p f (fun _ => ()) hp (fun u => rfl) us
  cases h1 : (updateOneUser q f us).find? p <;> cases h2 : us.find? p <;>
    rw [h1, h2] at h <;> simp_all

theorem sessionLive_decompose (s : ServerState) (t : String)
    (h : sessionLive s t = true) :
    (cacheGet s.cache t).isSome = true ∧
    ((s.users.find? (fun v => v.sessionKey == some t))).isSome = true := by
  simpa [sessionLive, findOneUser, Bool.and_eq_true] using h

theorem sessionLive_build (s : ServerState) (t : String)
    (h1 : (cacheGet s.cache t).isSome = true)
    (h2 : ((s.users.find? (fun v => v.sessionKey == some t))).isSome = true) :
    sessionLive s t = true := by
  simp [sessionLive, findOneUser, h1, h2]

theorem registerUser_state (s : ServerState) (req : RegisterRequest) (uid : String) :
    (registerUser s req uid).1 = s ∨
    (registerUser s req uid).1 = { s with users := s.users ++ [newConsumer s req uid] } := by
  unfold registerUser
  split
  · exact Or.inl rfl
  · dsimp only
    split
    · exact Or.inl rfl
    · exact Or.inr rfl

theorem login_state (s : ServerState) (e pw : String) :
    (login s e pw).1 = s ∨
    ∃ u, findOneUser (fun v => v.email == jsToLower e) s.users = some u ∧
      (∀ k, u.sessionKey = some k → cacheGet s.cache k = none) ∧
      (login s e pw).1 =
        { s with
            users := updateOneUser (fun v => v.email == jsToLower e)
                       (fun v => { v with sessionKey := some (deriveToken (buildUserPayload u)) })
                       s.users
            cache := cacheSet s.cache (deriveToken (buildUserPayload u))
                       (buildUserPayload u) (s.now + TTL90) } := by
  cases hfu : findOneUser (fun v => v.email == jsToLower e) s.users with
  | none =>
    rw [login_notFound s e pw hfu]
    exact Or.inl rfl
  | some u =>
    cases hcmp : bcryptCompare pw u.password with
    | false =>
      rw [login_badCreds s e pw u hfu hcmp]
      exact Or.inl rfl
    | true =>
      cases hsk : u.sessionKey with
      | some k =>
        cases hx : cacheGet s.cache k with
        | some x =>
          rw [login_hit s e pw u k x hfu hcmp hsk hx]
          exact Or.inl rfl
        | none =>
          have hm : ∀ k2, u.sessionKey = some k2 → cacheGet s.cache k2 = none := by
            intro k2 hk2
            rw [hsk] at hk2
            injection hk2 with hk2
            rw [← hk2]
            exact hx
          rw [login_fresh s e pw u hfu hcmp hm]
          exact Or.inr ⟨u, rfl, hm, rfl⟩
      | none =>
        have hm : ∀ k2, u.sessionKey = some k2 → cacheGet s.cache k2 = none := by
          intro k2 hk2
          rw [hsk] at hk2
          cases hk2
        rw [login_fresh s e pw u hfu hcmp hm]
        exact Or.inr ⟨u, rfl, hm, rfl⟩

theorem resolveSession_state (s : ServerState) (t2 : String) :
    (resolveSession s t2).1 = s ∨
    (cacheGet s.cache t2 = none ∧
      (resolveSession s t2).1 =
        { s with users := updateOneUser (fun v => v.sessionKey == some t2)
                            (fun v => { v with sessionKey := none }) s.users }) ∨
    (∃ u, (resolveSession s t2).1 =
      { s with cache := cacheSet (cacheDel s.cache t2) t2 (buildUserPayload u)
                          (s.now + TTL90) }) := by
  cases hcg : cacheGet s.cache t2 with
  | none =>
    rw [resolveSession_absent s t2 hcg]
    exact Or.inr (Or.inl ⟨rfl, rfl⟩)
  | some ce =>
    obtain ⟨c, e⟩ := ce
    cases hfu : findOneUser (fun v => v.sessionKey == some t2) s.users with
    | none =>
      rw [resolveSession_orphan s t2 c e hcg hfu]
      exact Or.inl rfl
    | some u =>
      cases hd : dataChanged c (buildUserPayload u) with
      | true =>
        rw [resolveSession_repair s t2 c e u hcg hfu hd]
        exact Or.inr (Or.inr ⟨u, rfl⟩)
      | false =>
        rw [resolveSession_fast s t2 c e u hcg hfu hd]
        exact Or.inl rfl

theorem passwordChange_state (s : ServerState) (req : PwChangeRequest) :
    (passwordChange s req).1 = s ∨
    ∃ uid, (passwordChange s req).1 =
      { s with users := updateOneUser (fun u => u.userid == uid)
                 (fun u => { u with password := bcryptHash 12 (req.newPassword.getD ""),
                                    passwordChangedAt := some s.now }) s.users } := by
  unfold passwordChange
  split
  · exact Or.inl rfl
  · split
    · exact Or.inl rfl
    · split
      · exact Or.inl rfl
      · dsimp only
        split
        · exact Or.inl rfl
        · split
          · exact Or.inl rfl
          · split
            · exact Or.inl rfl
            · exact Or.inr ⟨req.userid.getD "", rfl⟩

theorem updateProfile_state (s : ServerState) (t2 n2 ph2 : String) :
    (updateProfile s t2 n2 ph2).1 = s ∨
    (cacheGet s.cache t2 = none ∧
      (updateProfile s t2 n2 ph2).1 =
        { s with users := updateOneUser (fun v => v.sessionKey == some t2)
                            (fun v => { v with sessionKey := none }) s.users }) ∨
    (∃ pl, (updateProfile s t2 n2 ph2).1 =
      { s with
          users := updateOneUser (fun v => v.sessionKey == some t2)
                     (fun v => { v with name := n2, phone := ph2 }) s.users
          cache := cacheSet s.cache t2 pl (s.now + TTL90) }) := by
  cases hfu : findOneUser (fun v => v.sessionKey == some t2) s.users with
  | none =>
    rw [updateProfile_notFound s t2 n2 ph2 hfu]
    exact Or.inl rfl
  | some u0 =>
    cases hc : cacheGet s.cache t2 with
    | none =>
      rw [updateProfile_expired s t2 n2 ph2 u0 hfu hc]
      exact Or.inr (Or.inl ⟨rfl, rfl⟩)
    | some x =>
      rw [updateProfile_ok_spec s t2 n2 ph2 u0 x hfu hc]
      exact Or.inr (Or.inr ⟨buildUserPayload { u0 with name := n2, phone := ph2 }, rfl⟩)

/-- C4: expiry finality — when the cache entry for a token is absent,
`resolveSession` fails with the 401 `SESSION_EXPIRED` body even if a durable
record still points at the token, clears the sessionKey of the matching
record (the count of records pointing at the token drops by one), and leaves
the cache alone; and this is the only invalidating transition: no operation
of the service turns a live session (cache entry present and record pointing
at it) into a dead one. -/
theorem claim_C4_expiry_finality (s : ServerState) (t : String) :
    (cacheGet s.cache t = none →
      (resolveSession s t).2 = SessionResult.expired ∧
      (resolveSession s t).2.status = 401 ∧
      (resolveSession s t).2.errCode = some "SESSION_EXPIRED" ∧
      (resolveSession s t).1.cache = s.cache ∧
      ((resolveSession s t).1.users.countP (fun v => v.sessionKey == some t) =
        s.users.countP (fun v => v.sessionKey == some t) - 1)) ∧
    (∀ op : Op, sessionLive s t = true → sessionLive (applyOp s op) t = true) := by
  constructor
  · intro h
    rw [resolveSession_absent s t h]
    refine ⟨rfl, rfl, rfl, rfl, ?_⟩
    exact countP_updateOneUser (fun v => v.sessionKey == some t)
      (fun v => { v with sessionKey := none }) (fun u _ => by simp) s.users
  · intro op hl
    have hc := (sessionLive_decompose s t hl).1
    have hf := (sessionLive_decompose s t hl).2
    cases op with
    | doRegister req uid =>
      rcases registerUser_state s req uid with h | h
      · show sessionLive (registerUser s req uid).1 t = true
        rw [h]
        exact hl
      · show sessionLive (registerUser s req uid).1 t = true
        rw [h]
        exact sessionLive_build _ t hc
          (find?_append_isSome _ s.users [newConsumer s req uid] hf)
    | doLogin e pw =>
      rcases login_state s e pw with h | ⟨u, hfu, hm, h⟩
      · show sessionLive (login s e pw).1 t = true
        rw [h]
        exact hl
      · show sessionLive (login s e pw).1 t = true
        rw [h]
        refine sessionLive_build _ t ?_ ?_
        · by_cases hkt : t = deriveToken (buildUserPayload u)
          · rw [hkt, cacheGet_set_self]
            rfl
          · rw [cacheGet_set_ne _ _ _ _ _ hkt]
            exact hc
        · have hput : (fun v => v.sessionKey == some t) u = false := by
            cases hsk : u.sessionKey with
            | none => simp [hsk]
            | some k =>
              have hknone := hm k hsk
              have hkt : ¬(k = t) := by
                intro he
                subst he
                rw [hknone] at hc
                simp at hc
              simp [hsk, hkt]
          exact find?_updateOneUser_isSome_of_found _ _ _ s.users u hfu hput hf
    | doResolve t2 =>
      rcases resolveSession_state s t2 with h | ⟨hnone, h⟩ | ⟨u, h⟩
      · show sessionLive (resolveSession s t2).1 t = true
        rw [h]
        exact hl
      · have ht : ¬(t = t2) := by
          intro he
          rw [he, hnone] at hc
          simp at hc
        show sessionLive (resolveSession s t2).1 t = true
        rw [h]
        refine sessionLive_build _ t hc ?_
        have hdisj : ∀ v : UserRecord, (v.sessionKey == some t2) = true →
            (v.sessionKey == some t) = false ∧
            ((none : Option String) == some t) = false := by
          intro v hq
          have h1 : v.sessionKey = some t2 := by simpa using hq
          refine ⟨?_, by simp⟩
          simp [h1]
          exact fun hh => ht hh.symm
        have heq := find?_updateOneUser_of_disjoint
          (fun v => v.sessionKey == some t2)
          (fun v => v.sessionKey == some t)
          (fun v => { v with sessionKey := none }) hdisj s.users
        exact (congrArg Option.isSome heq).trans hf
      · show sessionLive (resolveSession s t2).1 t = true
        rw [h]
        refine sessionLive_build _ t ?_ hf
        by_cases hkt : t = t2
        · rw [hkt, cacheGet_set_self]
          rfl
        · rw [cacheGet_set_ne _ _ _ _ _ hkt, cacheGet_del_ne _ _ _ hkt]
          exact hc
    | doPwChange req =>
      rcases passwordChange_state s req with h | ⟨uid, h⟩
      · show sessionLive (passwordChange s req).1 t = true
        rw [h]
        exact hl
      · show sessionLive (passwordChange s req).1 t = true
        rw [h]
        refine sessionLive_build _ t hc ?_
        exact (find?_updateOneUser_isSome_pres (fun u => u.userid == uid)
          (fun v => v.sessionKey == some t)
          (fun u => { u with password := bcryptHash 12 (req.newPassword.getD ""),
                             passwordChangedAt := some s.now })
          (fun u => rfl) s.users).trans hf
    | doUpdate t2 n2 ph2 =>
      rcases updateProfile_state s t2 n2 ph2 with h | ⟨hnone, h⟩ | ⟨pl, h⟩
      · show sessionLive (updateProfile s t2 n2 ph2).1 t = true
        rw [h]
        exact hl
      · have ht : ¬(t = t2) := by
          intro he
          rw [he, hnone] at hc
          simp at hc
        show sessionLive (updateProfile s t2 n2 ph2).1 t = true
        rw [h]
        refine sessionLive_build _ t hc ?_
        have hdisj : ∀ v : UserRecord, (v.sessionKey == some t2) = true →
            (v.sessionKey == some t) = false ∧
            ((none : Option String) == some t) = false := by
          intro v hq
          have h1 : v.sessionKey = some t2 := by simpa using hq
          refine ⟨?_, by simp⟩
          simp [h1]
          exact fun hh => ht hh.symm
        have heq := find?_updateOneUser_of_disjoint
          (fun v => v.sessionKey == some t2)
          (fun v => v.sessionKey == some t)
          (fun v => { v with sessionKey := none }) hdisj s.users
        exact (congrArg Option.isSome heq).trans hf
      · show sessionLive (updateProfile s t2 n2 ph2).1 t = true
        rw [h]
        refine sessionLive_build _ t ?_ ?_
        · by_cases hkt : t = t2
          · rw [hkt, cacheGet_set_self]
            rfl
          · rw [cacheGet_set_ne _ _ _ _ _ hkt]
            exact hc
        · exact (find?_updateOneUser_isSome_pres (fun v => v.sessionKey == some t2)
            (fun v => v.sessionKey == some t)
            (fun v => { v with name := n2, phone := ph2 })
            (fun u => rfl) s.users).trans hf

theorem claim_C4_expiry_finality_witness :
    ((resolveSession wNoCacheState "tok").2 = SessionResult.expired ∧
     (resolveSession wNoCacheState "tok").2.status = 401 ∧
     (resolveSession wNoCacheState "tok").2.errCode = some "SESSION_EXPIRED" ∧
     (resolveSession wNoCacheState "tok").1.cache = wNoCacheState.cache ∧
     ((resolveSession wNoCacheState "tok").1.users.countP
        (fun v => v.sessionKey == some "tok") =
       wNoCacheState.users.countP (fun v => v.sessionKey == some "tok") - 1)) ∧
    sessionLive (applyOp wState (Op.doUpdate "tok" "Bob" "222")) "tok" = true := by
  constructor
  · exact (claim_C4_expiry_finality wNoCacheState "tok").1 (by decide)
  · exact (claim_C4_expiry_finality wState "tok").2 (Op.doUpdate "tok" "Bob" "222")
      (by decide)
